import Mathlib

/-
Verification of the mutual-fund operations analysis engine:
a shallow embedding of src/backend/utils/financialCalculations.js and
src/backend/utils/iirocCompliance.js.

Modelling conventions.
JavaScript numbers are modelled as exact rationals where the computation is
rational, and as real numbers where Math.sqrt or Math.pow with a fractional
exponent appears.  parseFloat(x.toFixed(d)) is modelled as exact decimal
rounding to d digits, ties away from zero, which is what Number.prototype.toFixed
performs on the decimal value (the sign is split off first, then ties round up).
A JavaScript division whose denominator can be zero produces NaN or Infinity;
such a division site is modelled with jsDiv, returning none for the non-finite
outcomes, and functions whose result can therefore be non-finite return Option.
The current date read by new Date() is modelled as an explicit argument
(currentYear for getFullYear, a string for toISOString), making the hidden
clock input of the code visible.
-/

/-- Sum written as the JavaScript reduce((sum, x) => sum + x, 0) fold. -/
def jsSum {α : Type} [AddCommMonoid α] (l : List α) : α :=
  l.foldl (fun sum x => sum + x) 0

/-- The mean as the code computes it: reduce-sum divided by length. -/
def jsMean {α : Type} [DivisionRing α] (l : List α) : α :=
  jsSum l / (l.length : α)

/-- parseFloat(x.toFixed(d)) as exact decimal rounding: d digits, ties away
from zero (toFixed splits the sign off and rounds the magnitude, ties up). -/
def jsToFixed {α : Type} [LinearOrderedField α] [FloorRing α] (d : ℕ) (x : α) : α :=
  if x < 0 then -((⌊(-x) * 10 ^ d + 1 / 2⌋ : ℤ) : α) / 10 ^ d
  else ((⌊x * 10 ^ d + 1 / 2⌋ : ℤ) : α) / 10 ^ d

/-- A JavaScript division at a site with no zero-denominator guard: the
quotient when the denominator is nonzero, none (NaN or an infinity) otherwise. -/
def jsDiv {α : Type} [DivisionRing α] [DecidableEq α] (a b : α) : Option α :=
  if b = 0 then none else some (a / b)

/- ---------------------------------------------------------------------- -/
/- financialCalculations.js                                               -/
/- ---------------------------------------------------------------------- -/

/-- calculatePROR: throws when the beginning value or the weighted denominator
is not positive, otherwise the personal rate of return in percent, 2 decimals. -/
def calculatePROR (beginningValue endingValue contributions withdrawals timePeriod : ℚ) :
    Except String ℚ :=
  if beginningValue ≤ 0 then .error "Beginning value must be greater than zero"
  else
    let netCashFlow := contributions - withdrawals
    let weightedContributions := contributions * (timePeriod / 12)
    let denominator := beginningValue + weightedContributions
    if denominator ≤ 0 then .error "Invalid calculation parameters"
    else .ok (jsToFixed 2 (((endingValue - beginningValue - netCashFlow) / denominator) * 100))

/-- calculateAnnualizedReturn.  The code folds with sum + (1 + ret / 100)
starting from 1, then raises the fold result to 12 / timePeriod. -/
noncomputable def calculateAnnualizedReturn (returns : List ℝ) (timePeriod : ℝ) : ℝ :=
  if returns.length = 0 then 0
  else
    let totalReturn := returns.foldl (fun sum ret => sum + (1 + ret / 100)) 1
    let annualizedReturn := totalReturn ^ ((12 : ℝ) / timePeriod) - 1
    jsToFixed 2 (annualizedReturn * 100)

/-- The annualized return as the specification describes it: compound the
period returns as a product and annualize the compounded result.  Written from
the words of the spec, for comparison with calculateAnnualizedReturn. -/
noncomputable def annualizedReturnSpec (returns : List ℝ) (timePeriod : ℝ) : ℝ :=
  if returns.length = 0 then 0
  else
    let compounded := (returns.map (fun ret => 1 + ret / 100)).prod
    jsToFixed 2 ((compounded ^ ((12 : ℝ) / timePeriod) - 1) * 100)

/-- calculateSharpeRatio: excess mean return over the population standard
deviation, 3 decimals; 0 for an empty series or a zero deviation. -/
noncomputable def calculateSharpeRatio (returns : List ℝ) (riskFreeRate : ℝ) : ℝ :=
  if returns.length = 0 then 0
  else
    let avgReturn := jsMean returns
    let variance := jsSum (returns.map fun ret => (ret - avgReturn) ^ 2) / (returns.length : ℝ)
    let stdDev := Real.sqrt variance
    if stdDev = 0 then 0
    else jsToFixed 3 ((avgReturn - riskFreeRate) / stdDev)

/-- calculateMaxDrawdown: running peak and worst peak-to-trough loss in
percent, 2 decimals; 0 for an empty series. -/
def calculateMaxDrawdown (navValues : List ℚ) : ℚ :=
  match navValues with
  | [] => 0
  | peak0 :: rest =>
    let state := rest.foldl
      (fun (s : ℚ × ℚ) nav =>
        if s.1 < nav then (nav, s.2)
        else
          let drawdown := (s.1 - nav) / s.1
          if s.2 < drawdown then (s.1, drawdown) else s)
      (peak0, 0)
    jsToFixed 2 (state.2 * 100)

/-- calculateVolatility: population standard deviation of the series,
2 decimals; 0 for an empty series. -/
noncomputable def calculateVolatility (returns : List ℝ) : ℝ :=
  if returns.length = 0 then 0
  else
    let avgReturn := jsMean returns
    let variance := jsSum (returns.map fun ret => (ret - avgReturn) ^ 2) / (returns.length : ℝ)
    jsToFixed 2 (Real.sqrt variance)

/-- calculateBeta: covariance with the benchmark over the benchmark variance,
3 decimals; 1 for mismatched lengths, an empty series, or a flat benchmark. -/
def calculateBeta (fundReturns benchmarkReturns : List ℚ) : ℚ :=
  if fundReturns.length ≠ benchmarkReturns.length ∨ fundReturns.length = 0 then 1
  else
    let fundAvg := jsMean fundReturns
    let benchmarkAvg := jsMean benchmarkReturns
    let covariance :=
      jsSum (List.zipWith (fun f b => (f - fundAvg) * (b - benchmarkAvg))
        fundReturns benchmarkReturns) / (fundReturns.length : ℚ)
    let benchmarkVariance :=
      jsSum (benchmarkReturns.map fun b => (b - benchmarkAvg) * (b - benchmarkAvg)) /
        (benchmarkReturns.length : ℚ)
    if benchmarkVariance = 0 then 1
    else jsToFixed 3 (covariance / benchmarkVariance)

/-- calculateCorrelation: Pearson correlation, 3 decimals; 0 for mismatched
lengths, an empty series, or a zero denominator. -/
noncomputable def calculateCorrelation (returns1 returns2 : List ℝ) : ℝ :=
  if returns1.length ≠ returns2.length ∨ returns1.length = 0 then 0
  else
    let avg1 := jsMean returns1
    let avg2 := jsMean returns2
    let numerator :=
      jsSum (List.zipWith (fun a b => (a - avg1) * (b - avg2)) returns1 returns2)
    let denominator1 := jsSum (returns1.map fun a => (a - avg1) * (a - avg1))
    let denominator2 := jsSum (returns2.map fun b => (b - avg2) * (b - avg2))
    let denominator := Real.sqrt (denominator1 * denominator2)
    if denominator = 0 then 0
    else jsToFixed 3 (numerator / denominator)

/-- calculateInformationRatio: mean excess return over the tracking error,
where the code takes the tracking error from calculateVolatility, so the
denominator is the 2-decimal-rounded volatility of the excess returns. -/
noncomputable def calculateInformationRatio (fundReturns benchmarkReturns : List ℝ) : ℝ :=
  if fundReturns.length ≠ benchmarkReturns.length ∨ fundReturns.length = 0 then 0
  else
    let excessReturns := List.zipWith (fun fund b => fund - b) fundReturns benchmarkReturns
    let avgExcessReturn := jsMean excessReturns
    let trackingError := calculateVolatility excessReturns
    if trackingError = 0 then 0
    else jsToFixed 3 (avgExcessReturn / trackingError)

/-- The information ratio as the specification describes it: the tracking
error kept at full precision, rounding applied only as the final step.
Written from the words of the spec, for comparison with
calculateInformationRatio. -/
noncomputable def informationRatioFullPrecision (fundReturns benchmarkReturns : List ℝ) : ℝ :=
  if fundReturns.length ≠ benchmarkReturns.length ∨ fundReturns.length = 0 then 0
  else
    let excessReturns := List.zipWith (fun fund b => fund - b) fundReturns benchmarkReturns
    let avgExcessReturn := jsMean excessReturns
    let trackingError :=
      Real.sqrt (jsSum (excessReturns.map fun ret => (ret - jsMean excessReturns) ^ 2) /
        (excessReturns.length : ℝ))
    if trackingError = 0 then 0
    else jsToFixed 3 (avgExcessReturn / trackingError)

/-- calculateSortinoRatio: excess mean return over the downside deviation,
3 decimals; 0 for an empty series, no downside observations, or a zero
downside deviation. -/
noncomputable def calculateSortinoRatio (returns : List ℝ) (riskFreeRate : ℝ) : ℝ :=
  if returns.length = 0 then 0
  else
    let avgReturn := jsMean returns
    let downsideReturns := returns.filter fun ret => ret < avgReturn
    if downsideReturns.length = 0 then 0
    else
      let downsideVariance :=
        jsSum (downsideReturns.map fun ret => (ret - avgReturn) ^ 2) / (returns.length : ℝ)
      let downsideDeviation := Real.sqrt downsideVariance
      if downsideDeviation = 0 then 0
      else jsToFixed 3 ((avgReturn - riskFreeRate) / downsideDeviation)

/-- The Sortino ratio as the specification describes it: every internal
accumulation, in particular the downside deviation, at full precision, with
the 3-decimal rounding applied only as the final step.  Written from the
words of the spec, for comparison with calculateSortinoRatio. -/
noncomputable def sortinoRatioFullPrecision (returns : List ℝ) (riskFreeRate : ℝ) : ℝ :=
  if returns.length = 0 then 0
  else
    let avgReturn := returns.sum / (returns.length : ℝ)
    let downsideReturns := returns.filter fun ret => ret < avgReturn
    if downsideReturns.length = 0 then 0
    else
      let downsideDeviation :=
        Real.sqrt ((downsideReturns.map fun ret => (ret - avgReturn) ^ 2).sum /
          (returns.length : ℝ))
      if downsideDeviation = 0 then 0
      else jsToFixed 3 ((avgReturn - riskFreeRate) / downsideDeviation)

/-- calculateTreynorRatio.  There is no empty-series guard: the mean return
divides the reduce-sum by the length, so an empty series performs 0 / 0 and
the NaN reaches the result, modelled as none. -/
def calculateTreynorRatio (returns benchmarkReturns : List ℚ) (riskFreeRate : ℚ) : Option ℚ :=
  let beta := calculateBeta returns benchmarkReturns
  if beta = 0 then some 0
  else
    match jsDiv (jsSum returns) ((returns.length : ℚ)) with
    | none => none
    | some avgReturn => some (jsToFixed 3 ((avgReturn - riskFreeRate) / beta))

/-- calculateJensensAlpha.  As in calculateTreynorRatio the two mean returns
are unguarded, so an empty series on either side yields NaN, modelled none. -/
def calculateJensensAlpha (fundReturns benchmarkReturns : List ℚ) (riskFreeRate : ℚ) :
    Option ℚ :=
  let beta := calculateBeta fundReturns benchmarkReturns
  match jsDiv (jsSum fundReturns) ((fundReturns.length : ℚ)),
        jsDiv (jsSum benchmarkReturns) ((benchmarkReturns.length : ℚ)) with
  | some fundAvgReturn, some benchmarkAvgReturn =>
    let expectedReturn := riskFreeRate + beta * (benchmarkAvgReturn - riskFreeRate)
    some (jsToFixed 2 (fundAvgReturn - expectedReturn))
  | _, _ => none

/-- calculateVaR: the element of the ascending sort at index
floor((1 - confidence) * n), 2 decimals; some 0 for an empty series; none when
the index falls outside the array (the code would read undefined and throw). -/
def calculateVaR (returns : List ℚ) (confidenceLevel : ℚ) : Option ℚ :=
  if returns.length = 0 then some 0
  else
    let sortedReturns := List.insertionSort (· ≤ ·) returns
    let index := ⌊(1 - confidenceLevel) * (returns.length : ℚ)⌋
    if h : 0 ≤ index ∧ index.toNat < sortedReturns.length then
      some (jsToFixed 2 (sortedReturns.get ⟨index.toNat, h.2⟩))
    else none

/-- calculateCVaR: the mean of the returns at or below the rounded VaR value,
2 decimals, or the VaR value itself when no observation qualifies. -/
def calculateCVaR (returns : List ℚ) (confidenceLevel : ℚ) : Option ℚ :=
  if returns.length = 0 then some 0
  else
    match calculateVaR returns confidenceLevel with
    | none => none
    | some varValue =>
      let tailReturns := returns.filter fun ret => ret ≤ varValue
      if tailReturns.length = 0 then some varValue
      else some (jsToFixed 2 (jsMean tailReturns))

/-- calculateConcentrationRisk: the Herfindahl-Hirschman index of the
allocation weights in percent, 2 decimals; 0 for no allocations or a zero
total. -/
def calculateConcentrationRisk (allocations : List ℚ) : ℚ :=
  if allocations.length = 0 then 0
  else
    let totalAllocation := jsSum allocations
    if totalAllocation = 0 then 0
    else
      let hhi := jsSum (allocations.map fun alloc => (alloc / totalAllocation) ^ 2)
      jsToFixed 2 (hhi * 100)

/- ---------------------------------------------------------------------- -/
/- iirocCompliance.js                                                     -/
/- ---------------------------------------------------------------------- -/

/-- A row of the alternative_investments table as the compliance engine
reads it. -/
structure AlternativeInvestment where
  investment_type : String
  allocation_percentage : ℚ

/-- The fund record.  A field is an Option so that a missing or empty value
(falsy in JavaScript) is representable; the inception date is kept as the
calendar year that new Date(...).getFullYear() extracts, none when the date
is missing or unparsable. -/
structure FundData where
  fund_type : Option String
  management_fee : Option ℚ
  expense_ratio : Option ℚ
  inception_year : Option ℤ

/-- A row of the fund_performance table. -/
structure PerformancePoint where
  total_return : ℚ
  nav : ℚ
  assets_under_management : ℚ

/-- JavaScript truthiness of an optional string field: present and nonempty. -/
def jsTruthyStr : Option String → Bool
  | none => false
  | some s => decide (s ≠ "")

/-- JavaScript truthiness of an optional numeric field: present and nonzero. -/
def jsTruthyNum : Option ℚ → Bool
  | none => false
  | some q => decide (q ≠ 0)

/-- JavaScript truthiness of the stored inception date. -/
def jsTruthyYear : Option ℤ → Bool
  | none => false
  | some _ => true

/-- The truthiness test fundData[field] performed by checkRiskDisclosure. -/
def fieldTruthy (fundData : FundData) : String → Bool
  | "fund_type" => jsTruthyStr fundData.fund_type
  | "management_fee" => jsTruthyNum fundData.management_fee
  | "expense_ratio" => jsTruthyNum fundData.expense_ratio
  | "inception_date" => jsTruthyYear fundData.inception_year
  | _ => false

/-- The comparison x > c where x may be undefined: in JavaScript a comparison
against undefined (NaN) is false. -/
def optGT (x : Option ℚ) (c : ℚ) : Bool :=
  match x with
  | none => false
  | some q => decide (c < q)

/-- JavaScript addition of two possibly-undefined numbers: NaN (none) when
either operand is missing. -/
def optAdd : Option ℚ → Option ℚ → Option ℚ
  | some a, some b => some (a + b)
  | _, _ => none

/-- The fundTypeRisk lookup table of calculateRiskScore: none models the
undefined value a lookup of an unknown or missing fund type produces. -/
def fundTypeRisk : Option String → Option ℕ
  | some "Fixed Income" => some 2
  | some "Balanced" => some 4
  | some "Canadian Equity" => some 6
  | some "Global Equity" => some 7
  | some "Alternative" => some 9
  | some "Sector" => some 8
  | some "Real Estate" => some 7
  | _ => none

/-- calculateRiskScore.  currentYear models new Date().getFullYear(), an
input the code reads from the system clock. -/
def calculateRiskScore (currentYear : ℤ) (fundData : FundData) : ℕ :=
  let base : ℕ := (fundTypeRisk fundData.fund_type).getD 5
  let feeAdd : ℕ :=
    match fundData.expense_ratio with
    | some er => if 2 < er then 2 else if 3 / 2 < er then 1 else 0
    | none => 0
  let ageAdd : ℕ :=
    match fundData.inception_year with
    | some y => if currentYear - y < 3 then 2 else if currentYear - y < 5 then 1 else 0
    | none => 0
  min (base + feeAdd + ageAdd) 10

/-- getRiskLevel buckets for a risk score. -/
def getRiskLevel (riskScore : ℕ) : String :=
  if riskScore ≤ 3 then "Low"
  else if riskScore ≤ 5 then "Low-Medium"
  else if riskScore ≤ 7 then "Medium"
  else if riskScore ≤ 9 then "Medium-High"
  else "High"

/-- Result record of checkConcentrationLimits; a violation row keeps the
type, the allocation and the limit. -/
structure ConcentrationCheck where
  compliant : Bool
  concentrationRisk : ℚ
  violations : List (String × ℚ × ℚ)
  totalAlternativeAllocation : ℚ

/-- checkConcentrationLimits: every allocation must stay at or below 20%. -/
def checkConcentrationLimits (alternativeInvestments : List AlternativeInvestment) :
    ConcentrationCheck :=
  let maxConcentration : ℚ := 20
  let totalAllocation := jsSum (alternativeInvestments.map (·.allocation_percentage))
  let violations := alternativeInvestments.filter
    fun inv => maxConcentration < inv.allocation_percentage
  let concentrationRisk := calculateConcentrationRisk
    (alternativeInvestments.map (·.allocation_percentage))
  { compliant := decide (violations.length = 0)
    concentrationRisk := concentrationRisk
    violations := violations.map fun v => (v.investment_type, v.allocation_percentage, maxConcentration)
    totalAlternativeAllocation := totalAllocation }

/-- Result record of checkRiskDisclosure. -/
structure RiskDisclosureCheck where
  compliant : Bool
  riskScore : ℕ
  missingDisclosures : List String
  riskLevel : String

/-- checkRiskDisclosure: the four required fields must be truthy. -/
def checkRiskDisclosure (currentYear : ℤ) (fundData : FundData) : RiskDisclosureCheck :=
  let requiredDisclosures := ["fund_type", "management_fee", "expense_ratio", "inception_date"]
  let missingDisclosures := requiredDisclosures.filter fun field => !(fieldTruthy fundData field)
  let riskScore := calculateRiskScore currentYear fundData
  { compliant := decide (missingDisclosures.length = 0)
    riskScore := riskScore
    missingDisclosures := missingDisclosures
    riskLevel := getRiskLevel riskScore }

/-- Result record of checkPerformanceReporting.  The no-data branch of the
code returns an object carrying only compliant and reason, so every other
field is optional. -/
structure PerformanceReportingCheck where
  compliant : Bool
  reason : Option String
  volatility : Option ℝ
  maxDrawdown : Option ℚ
  dataPoints : Option ℕ
  hasRequiredPeriods : Option Bool

/-- checkPerformanceReporting: fails with a reason on no data, otherwise
compliant when at least 12 observations exist. -/
noncomputable def checkPerformanceReporting (performanceData : List PerformancePoint) :
    PerformanceReportingCheck :=
  if performanceData.length = 0 then
    { compliant := false
      reason := some "No performance data available"
      volatility := none, maxDrawdown := none, dataPoints := none, hasRequiredPeriods := none }
  else
    let hasRequiredPeriods := decide (12 ≤ performanceData.length)
    let volatility := calculateVolatility (performanceData.map fun p => (p.total_return : ℝ))
    let maxDrawdown := calculateMaxDrawdown (performanceData.map (·.nav))
    { compliant := hasRequiredPeriods
      reason := none
      volatility := some volatility
      maxDrawdown := some maxDrawdown
      dataPoints := some performanceData.length
      hasRequiredPeriods := some hasRequiredPeriods }

/-- Result record of checkFeeDisclosure.  The violation messages are kept
without the interpolated numeric values. -/
structure FeeDisclosureCheck where
  compliant : Bool
  violations : List String
  totalFees : Option ℚ
  managementFee : Option ℚ
  expenseRatio : Option ℚ

/-- checkFeeDisclosure: management fee at most 2.5, expense ratio at most 3.0,
total fees at most 4.0; a missing fee makes every comparison false. -/
def checkFeeDisclosure (fundData : FundData) : FeeDisclosureCheck :=
  let feeViolations : List String :=
    (if optGT fundData.management_fee (5 / 2) then ["Management fee exceeds maximum"] else []) ++
    (if optGT fundData.expense_ratio 3 then ["Expense ratio exceeds maximum"] else [])
  let totalFees := optAdd fundData.management_fee fundData.expense_ratio
  let feeViolations :=
    feeViolations ++ (if optGT totalFees 4 then ["Total fees exceed maximum"] else [])
  { compliant := decide (feeViolations.length = 0)
    violations := feeViolations
    totalFees := totalFees
    managementFee := fundData.management_fee
    expenseRatio := fundData.expense_ratio }

/-- calculateAverageDailyVolume: 1% of the mean assets under management,
but 0 when fewer than two observations exist. -/
def calculateAverageDailyVolume (performanceData : List PerformancePoint) : ℚ :=
  if performanceData.length < 2 then 0
  else
    let totalAUM := jsSum (performanceData.map (·.assets_under_management))
    let avgAUM := totalAUM / (performanceData.length : ℚ)
    avgAUM * 0.01

/-- Result record of checkLiquidityRequirements; liquidityRatio is none when
the JavaScript division produced a non-finite value. -/
structure LiquidityCheck where
  compliant : Bool
  reason : Option String
  aum : Option ℚ
  minAUM : Option ℚ
  liquidityRatio : Option ℚ
  avgDailyVolume : Option ℚ

/-- checkLiquidityRequirements: at least 10,000,000 of recent assets under
management and a liquidity ratio of at most 30.  When the average daily
volume is 0 the JavaScript quotient is NaN or an infinity; such a quotient
satisfies the comparison with 30 exactly when the numerator is negative. -/
def checkLiquidityRequirements (fundData : FundData)
    (performanceData : List PerformancePoint) : LiquidityCheck :=
  match performanceData.getLast? with
  | none =>
    { compliant := false
      reason := some "Insufficient data for liquidity analysis"
      aum := none, minAUM := none, liquidityRatio := none, avgDailyVolume := none }
  | some lastPoint =>
    let recentAUM := lastPoint.assets_under_management
    let minAUM : ℚ := 10000000
    let avgDailyVolume := calculateAverageDailyVolume performanceData
    let ratioWithin30 :=
      if avgDailyVolume = 0 then decide (recentAUM < 0)
      else decide (recentAUM / avgDailyVolume ≤ 30)
    { compliant := decide (minAUM ≤ recentAUM) && ratioWithin30
      reason := none
      aum := some recentAUM
      minAUM := some minAUM
      liquidityRatio := jsDiv recentAUM avgDailyVolume
      avgDailyVolume := some avgDailyVolume }

/-- The liquidity verdict as the specification words it: the most recent
assets under management reach 10,000,000 and that figure divided by 1% of the
mean assets under management across the series is at most 30.  Written from
the spec, for comparison with checkLiquidityRequirements. -/
def liquidityCompliantSpec (performanceData : List PerformancePoint) : Prop :=
  match performanceData.getLast? with
  | none => False
  | some lastPoint =>
    let recentAUM := lastPoint.assets_under_management
    let meanAUM := jsSum (performanceData.map (·.assets_under_management)) /
      (performanceData.length : ℚ)
    10000000 ≤ recentAUM ∧ recentAUM / (meanAUM * 0.01) ≤ 30

/-- Aggregated result of checkCompliance. -/
structure ComplianceChecks where
  concentrationLimits : ConcentrationCheck
  riskDisclosure : RiskDisclosureCheck
  performanceReporting : PerformanceReportingCheck
  feeDisclosure : FeeDisclosureCheck
  liquidityRequirements : LiquidityCheck
  overallCompliant : Bool
  warnings : List String
  violations : List String

/-- checkCompliance: the five checks followed by the sequential aggregation
of the code, concentration and fees flipping the overall flag and filling
violations, the other three filling warnings. -/
noncomputable def checkCompliance (currentYear : ℤ) (fundData : FundData)
    (performanceData : List PerformancePoint)
    (alternativeInvestments : List AlternativeInvestment) : ComplianceChecks :=
  let concentrationLimits := checkConcentrationLimits alternativeInvestments
  let riskDisclosure := checkRiskDisclosure currentYear fundData
  let performanceReporting := checkPerformanceReporting performanceData
  let feeDisclosure := checkFeeDisclosure fundData
  let liquidityRequirements := checkLiquidityRequirements fundData performanceData
  let overallCompliant1 := if !concentrationLimits.compliant then false else true
  let violations1 : List String :=
    if !concentrationLimits.compliant then ["Concentration Limits"] else []
  let warnings1 : List String :=
    if !riskDisclosure.compliant then ["Risk Disclosure"] else []
  let warnings2 :=
    if !performanceReporting.compliant then warnings1 ++ ["Performance Reporting"] else warnings1
  let overallCompliant2 := if !feeDisclosure.compliant then false else overallCompliant1
  let violations2 :=
    if !feeDisclosure.compliant then violations1 ++ ["Fee Disclosure"] else violations1
  let warnings3 :=
    if !liquidityRequirements.compliant then warnings2 ++ ["Liquidity Requirements"] else warnings2
  { concentrationLimits := concentrationLimits
    riskDisclosure := riskDisclosure
    performanceReporting := performanceReporting
    feeDisclosure := feeDisclosure
    liquidityRequirements := liquidityRequirements
    overallCompliant := overallCompliant2
    warnings := warnings3
    violations := violations2 }

/-- A recommendation row of generateRecommendations. -/
structure Recommendation where
  priority : String
  category : String
  action : String
  deadline : String

/-- generateRecommendations: the four conditional recommendation rows in
program order. -/
def generateRecommendations (complianceData : ComplianceChecks) : List Recommendation :=
  (if !complianceData.concentrationLimits.compliant then
    [{ priority := "HIGH", category := "Concentration Limits"
       action := "Review and rebalance portfolio to meet IIROC concentration limits"
       deadline := "30 days" }] else []) ++
  (if !complianceData.feeDisclosure.compliant then
    [{ priority := "HIGH", category := "Fee Disclosure"
       action := "Review fee structure and ensure compliance with IIROC fee limits"
       deadline := "15 days" }] else []) ++
  (if complianceData.warnings.contains "Risk Disclosure" then
    [{ priority := "MEDIUM", category := "Risk Disclosure"
       action := "Update fund documentation with complete risk disclosures"
       deadline := "60 days" }] else []) ++
  (if complianceData.warnings.contains "Liquidity Requirements" then
    [{ priority := "MEDIUM", category := "Liquidity"
       action := "Monitor liquidity ratios and consider portfolio adjustments"
       deadline := "90 days" }] else [])

/-- The compliance report of generateComplianceReport; the summary object is
flattened into the four counters. -/
structure ComplianceReport where
  fundId : ℕ
  reportDate : String
  complianceStatus : String
  totalChecks : ℕ
  passedChecks : ℕ
  warningsCount : ℕ
  violationsCount : ℕ
  details : ComplianceChecks
  recommendations : List Recommendation

/-- generateComplianceReport.  reportDate is new Date().toISOString(), a
clock reading modelled as the explicit argument now. -/
def generateComplianceReport (now : String) (fundId : ℕ)
    (complianceData : ComplianceChecks) : ComplianceReport :=
  { fundId := fundId
    reportDate := now
    complianceStatus :=
      if complianceData.overallCompliant then "COMPLIANT" else "NON-COMPLIANT"
    totalChecks := 5
    passedChecks :=
      ([complianceData.concentrationLimits.compliant, complianceData.riskDisclosure.compliant,
        complianceData.performanceReporting.compliant, complianceData.feeDisclosure.compliant,
        complianceData.liquidityRequirements.compliant].filter (· = true)).length
    warningsCount := complianceData.warnings.length
    violationsCount := complianceData.violations.length
    details := complianceData
    recommendations := generateRecommendations complianceData }

/-- A regulatory alert; payload carries the numeric value interpolated into
the message of the code, when the message has one. -/
structure Alert where
  atype : String
  severity : String
  payload : Option ℝ
  threshold : ℚ

/-- checkRegulatoryAlerts: high-volatility, high-fee and new-fund alerts in
program order.  currentYear models new Date().getFullYear(). -/
noncomputable def checkRegulatoryAlerts (currentYear : ℤ) (fundData : FundData)
    (performanceData : List PerformancePoint) : List Alert :=
  let alerts0 : List Alert := []
  let alerts1 :=
    if performanceData.length ≠ 0 then
      let volatility := calculateVolatility (performanceData.map fun p => (p.total_return : ℝ))
      if 25 < volatility then
        alerts0 ++ [{ atype := "HIGH_VOLATILITY", severity := "WARNING"
                      payload := some volatility, threshold := 25 }]
      else alerts0
    else alerts0
  let alerts2 :=
    if optGT fundData.expense_ratio 2 then
      alerts1 ++ [{ atype := "HIGH_FEES", severity := "WARNING"
                    payload := fundData.expense_ratio.map fun q => (q : ℝ), threshold := 2 }]
    else alerts1
  match fundData.inception_year with
  | some y =>
    if currentYear - y < 1 then
      alerts2 ++ [{ atype := "NEW_FUND", severity := "INFO", payload := none, threshold := 1 }]
    else alerts2
  | none => alerts2

/- ---------------------------------------------------------------------- -/
/- Shared lemmas                                                          -/
/- ---------------------------------------------------------------------- -/

theorem jsSum_eq_sum {α : Type} [AddCommMonoid α] (l : List α) : jsSum l = l.sum := by
  rw [jsSum, List.sum_eq_foldl]

theorem jsSum_nil {α : Type} [AddCommMonoid α] : jsSum ([] : List α) = 0 := rfl

theorem jsToFixed_zero {α : Type} [LinearOrderedField α] [FloorRing α] (d : ℕ) :
    jsToFixed d (0 : α) = 0 := by
  rw [jsToFixed, if_neg (lt_irrefl 0)]
  norm_num

theorem jsToFixed_one {α : Type} [LinearOrderedField α] [FloorRing α] (d : ℕ) :
    jsToFixed d (1 : α) = 1 := by
  rw [jsToFixed, if_neg (by norm_num : ¬ (1 : α) < 0)]
  have h : (⌊(1 : α) * 10 ^ d + 1 / 2⌋ : ℤ) = 10 ^ d := by
    rw [one_mul]
    have h10 : (10 : α) ^ d = ((10 ^ d : ℤ) : α) := by push_cast; ring
    rw [h10, Int.floor_int_add]
    norm_num
  rw [h]
  push_cast
  exact div_self (by positivity)

theorem jsMean_const {α : Type} [LinearOrderedField α] {l : List α} {x : α}
    (hconst : ∀ y ∈ l, y = x) (hne : l ≠ []) : jsMean l = x := by
  rw [jsMean, jsSum_eq_sum]
  rw [List.sum_eq_card_nsmul l x hconst]
  have hn : (l.length : α) ≠ 0 :=
    Nat.cast_ne_zero.mpr (List.length_pos.mpr hne).ne'
  rw [nsmul_eq_mul]
  field_simp

theorem jsSum_map_zero {α β : Type} [AddCommMonoid β] {l : List α} {f : α → β}
    (h : ∀ y ∈ l, f y = 0) : jsSum (l.map f) = 0 := by
  rw [jsSum_eq_sum]
  exact List.sum_eq_zero (by simpa using h)

theorem jsSum_map_mulSelf_nonneg {α : Type} [LinearOrderedField α] (l : List α) (c : α) :
    0 ≤ jsSum (l.map fun a => (a - c) * (a - c)) := by
  rw [jsSum_eq_sum]
  exact List.sum_nonneg (by
    intro x hx
    obtain ⟨a, _, rfl⟩ := List.mem_map.mp hx
    exact mul_self_nonneg _)

theorem jsSum_map_mulSelf_pos {α : Type} [LinearOrderedField α] {l : List α}
    (h : ∃ a ∈ l, ∃ b ∈ l, a ≠ b) :
    0 < jsSum (l.map fun a => (a - jsMean l) * (a - jsMean l)) := by
  obtain ⟨a, ha, b, hb, hab⟩ := h
  have hne : l ≠ [] := by rintro rfl; simp at ha
  have hx : ∃ x ∈ l, x ≠ jsMean l := by
    by_contra hall
    push_neg at hall
    exact hab ((hall a ha).trans (hall b hb).symm)
  obtain ⟨x, hx, hxne⟩ := hx
  have hterm : 0 < (x - jsMean l) * (x - jsMean l) :=
    mul_self_pos.mpr (sub_ne_zero.mpr hxne)
  have hle : (x - jsMean l) * (x - jsMean l) ≤
      jsSum (l.map fun a => (a - jsMean l) * (a - jsMean l)) := by
    rw [jsSum_eq_sum]
    refine List.single_le_sum ?_ _ (List.mem_map.mpr ⟨x, hx, rfl⟩)
    intro y hy
    obtain ⟨c, _, rfl⟩ := List.mem_map.mp hy
    exact mul_self_nonneg _
  exact lt_of_lt_of_le hterm hle

/- ---------------------------------------------------------------------- -/
/- C4: calculatePROR                                                      -/
/- ---------------------------------------------------------------------- -/

theorem calculatePROR_eq (b e c w t : ℚ) :
    calculatePROR b e c w t =
      if b ≤ 0 then .error "Beginning value must be greater than zero"
      else if b + c * (t / 12) ≤ 0 then .error "Invalid calculation parameters"
      else .ok (jsToFixed 2 (((e - b - (c - w)) / (b + c * (t / 12))) * 100)) := rfl

/-- C4: calculatePROR raises an error exactly when the beginning value or the
denominator beginningValue + contributions * (timePeriod / 12) is at most 0;
otherwise it returns the documented quotient in percent, 2 decimals.  The two
worked examples of the spec: PROR(10000, 11000, 1000, 0, 12) = 0.00 and
PROR(0, 1000, 0, 0, 12) raises. -/
theorem calculatePROR_invalid_input_iff :
    (∀ b e c w t : ℚ,
      ((∃ msg, calculatePROR b e c w t = .error msg) ↔ b ≤ 0 ∨ b + c * (t / 12) ≤ 0) ∧
      (¬(b ≤ 0 ∨ b + c * (t / 12) ≤ 0) →
        calculatePROR b e c w t =
          .ok (jsToFixed 2 (((e - b - (c - w)) / (b + c * (t / 12))) * 100)))) ∧
    calculatePROR 10000 11000 1000 0 12 = .ok 0 ∧
    (∃ msg, calculatePROR 0 1000 0 0 12 = .error msg) := by
  refine ⟨fun b e c w t => ⟨?_, ?_⟩, ?_, ?_⟩
  · constructor
    · rintro ⟨msg, hmsg⟩
      by_contra hcon
      push_neg at hcon
      rw [calculatePROR_eq, if_neg (not_le.mpr hcon.1), if_neg (not_le.mpr hcon.2)] at hmsg
      exact Except.noConfusion hmsg
    · intro h
      rw [calculatePROR_eq]
      rcases Classical.em (b ≤ 0) with hb | hb
      · rw [if_pos hb]; exact ⟨_, rfl⟩
      · have hd : b + c * (t / 12) ≤ 0 := by
          rcases h with h | h
          · exact absurd h hb
          · exact h
        rw [if_neg hb, if_pos hd]; exact ⟨_, rfl⟩
  · intro h
    push_neg at h
    rw [calculatePROR_eq, if_neg (not_le.mpr h.1), if_neg (not_le.mpr h.2)]
  · rw [calculatePROR_eq]
    norm_num [jsToFixed_zero]
  · rw [calculatePROR_eq, if_pos (by norm_num)]
    exact ⟨_, rfl⟩

/-- C4 witness: the positive branch of the theorem at the first worked
example. -/
theorem calculatePROR_invalid_input_iff_witness :
    calculatePROR 10000 11000 1000 0 12 =
      .ok (jsToFixed 2 (((11000 - 10000 - (1000 - 0)) / (10000 + 1000 * ((12 : ℚ) / 12))) * 100)) :=
  (calculatePROR_invalid_input_iff.1 10000 11000 1000 0 12).2 (by norm_num)

/- ---------------------------------------------------------------------- -/
/- C8: calculateRiskScore and getRiskLevel                                -/
/- ---------------------------------------------------------------------- -/

theorem calculateRiskScore_eq (y : ℤ) (fund : FundData) :
    calculateRiskScore y fund =
      min ((fundTypeRisk fund.fund_type).getD 5 +
        (match fund.expense_ratio with
         | some er => if 2 < er then 2 else if 3 / 2 < er then 1 else 0
         | none => 0) +
        (match fund.inception_year with
         | some iy => if y - iy < 3 then 2 else if y - iy < 5 then 1 else 0
         | none => 0)) 10 := by
  rcases fund with ⟨ft, mf, er, iy⟩
  cases er <;> cases iy <;> rfl

theorem fundTypeRisk_getD_bounds (t : Option String) :
    2 ≤ (fundTypeRisk t).getD 5 ∧ (fundTypeRisk t).getD 5 ≤ 9 := by
  unfold fundTypeRisk
  split <;> simp

/-- C8: the risk score is an integer between 1 and 10, the minimum of 10 and
the base-table score plus the fee and age add-ons; the base table is the one
the spec lists; the worked example scores 2 and buckets to Low; the buckets
are at most 3 Low, at most 5 Low-Medium, at most 7 Medium, at most 9
Medium-High, above that High. -/
theorem calculateRiskScore_bounds_table :
    (∀ (y : ℤ) (fund : FundData),
      1 ≤ calculateRiskScore y fund ∧ calculateRiskScore y fund ≤ 10 ∧
      calculateRiskScore y fund =
        min 10 ((fundTypeRisk fund.fund_type).getD 5 +
          (match fund.expense_ratio with
           | some er => if 2 < er then 2 else if 3 / 2 < er then 1 else 0
           | none => 0) +
          (match fund.inception_year with
           | some iy => if y - iy < 3 then 2 else if y - iy < 5 then 1 else 0
           | none => 0))) ∧
    (fundTypeRisk (some "Fixed Income") = some 2 ∧ fundTypeRisk (some "Balanced") = some 4 ∧
     fundTypeRisk (some "Canadian Equity") = some 6 ∧ fundTypeRisk (some "Global Equity") = some 7 ∧
     fundTypeRisk (some "Real Estate") = some 7 ∧ fundTypeRisk (some "Sector") = some 8 ∧
     fundTypeRisk (some "Alternative") = some 9 ∧ fundTypeRisk (some "Money Market") = none) ∧
    (∀ (y : ℤ) (mf : Option ℚ),
      calculateRiskScore y ⟨some "Fixed Income", mf, some 1, some (y - 10)⟩ = 2 ∧
      getRiskLevel (calculateRiskScore y ⟨some "Fixed Income", mf, some 1, some (y - 10)⟩) =
        "Low") ∧
    (∀ s : ℕ,
      (s ≤ 3 → getRiskLevel s = "Low") ∧
      (3 < s → s ≤ 5 → getRiskLevel s = "Low-Medium") ∧
      (5 < s → s ≤ 7 → getRiskLevel s = "Medium") ∧
      (7 < s → s ≤ 9 → getRiskLevel s = "Medium-High") ∧
      (9 < s → getRiskLevel s = "High")) := by
  refine ⟨fun y fund => ?_, ?_, fun y mf => ?_, fun s => ?_⟩
  · have hb := fundTypeRisk_getD_bounds fund.fund_type
    refine ⟨?_, ?_, ?_⟩
    · rw [calculateRiskScore_eq]
      exact Nat.le_min.mpr ⟨by omega, by norm_num⟩
    · rw [calculateRiskScore_eq]
      exact Nat.min_le_right _ _
    · rw [calculateRiskScore_eq, Nat.min_comm]
  · refine ⟨rfl, rfl, rfl, rfl, rfl, rfl, rfl, rfl⟩
  · have h1 : calculateRiskScore y ⟨some "Fixed Income", mf, some 1, some (y - 10)⟩ = 2 := by
      unfold calculateRiskScore
      norm_num [fundTypeRisk]
    exact ⟨h1, by rw [h1]; rfl⟩
  · refine ⟨?_, ?_, ?_, ?_, ?_⟩
    · intro h; unfold getRiskLevel; rw [if_pos h]
    · intro h1 h2; unfold getRiskLevel; rw [if_neg (by omega), if_pos h2]
    · intro h1 h2; unfold getRiskLevel; rw [if_neg (by omega), if_neg (by omega), if_pos h2]
    · intro h1 h2; unfold getRiskLevel
      rw [if_neg (by omega), if_neg (by omega), if_neg (by omega), if_pos h2]
    · intro h1; unfold getRiskLevel
      rw [if_neg (by omega), if_neg (by omega), if_neg (by omega), if_neg (by omega)]

/-- C8 witness: the Medium-High bucket of the theorem at score 8. -/
theorem calculateRiskScore_bounds_table_witness : getRiskLevel 8 = "Medium-High" :=
  (calculateRiskScore_bounds_table.2.2.2 8).2.2.2.1 (by norm_num) (by norm_num)

/- ---------------------------------------------------------------------- -/
/- C3: determinism and the clock                                          -/
/- ---------------------------------------------------------------------- -/

/-- C3 counterexample: calculateRiskScore reads the system clock, so two
invocations with identical fund arguments made in different clock years give
different results (fund age 1 adds 2, fund age 3 adds only 1). -/
theorem calculateRiskScore_clock_dependent :
    calculateRiskScore 2025 ⟨some "Fixed Income", some 1, some 1, some 2024⟩ ≠
    calculateRiskScore 2027 ⟨some "Fixed Income", some 1, some 1, some 2024⟩ := by
  unfold calculateRiskScore
  norm_num [fundTypeRisk]

/-- C3 amended: every engine operation is a pure function of its arguments
together with the clock reading the code takes from new Date();
checkRegulatoryAlerts equals an explicit function of the fund data, the
performance data and the clock year, and the report carries the clock
timestamp as its reportDate. -/
theorem engine_pure_given_clock :
    (∀ (y : ℤ) (fund : FundData) (perf : List PerformancePoint),
      checkRegulatoryAlerts y fund perf =
        (if perf.length ≠ 0 ∧
            25 < calculateVolatility (perf.map fun p => (p.total_return : ℝ)) then
          [{ atype := "HIGH_VOLATILITY", severity := "WARNING"
             payload := some (calculateVolatility (perf.map fun p => (p.total_return : ℝ)))
             threshold := 25 }] else []) ++
        (if optGT fund.expense_ratio 2 then
          [{ atype := "HIGH_FEES", severity := "WARNING"
             payload := fund.expense_ratio.map fun q => (q : ℝ), threshold := 2 }] else []) ++
        (match fund.inception_year with
         | some iy =>
           if y - iy < 1 then
             [{ atype := "NEW_FUND", severity := "INFO", payload := none, threshold := 1 }]
           else []
         | none => [])) ∧
    (∀ (now : String) (fundId : ℕ) (data : ComplianceChecks),
      (generateComplianceReport now fundId data).reportDate = now ∧
      (generateComplianceReport now fundId data).complianceStatus =
        (if data.overallCompliant then "COMPLIANT" else "NON-COMPLIANT")) := by
  constructor
  · intro y fund perf
    unfold checkRegulatoryAlerts
    rcases hiy : fund.inception_year with _ | iy <;>
      by_cases h1 : perf.length ≠ 0 <;>
      by_cases h2 : 25 < calculateVolatility (perf.map fun p => (p.total_return : ℝ)) <;>
      cases hfe : optGT fund.expense_ratio 2 <;>
      simp [h1, h2, hfe, hiy] <;>
      split <;> simp
  · intro now fundId data
    exact ⟨rfl, rfl⟩

/- ---------------------------------------------------------------------- -/
/- C5: checkCompliance aggregation                                        -/
/- ---------------------------------------------------------------------- -/

/-- C5: the overall flag is false exactly when concentration limits or fee
disclosure fail; those two failures and only those enter violations, while
risk disclosure, performance reporting and liquidity failures enter warnings
and never touch the overall flag. -/
theorem checkCompliance_aggregation :
    ∀ (y : ℤ) (fund : FundData) (perf : List PerformancePoint)
      (alts : List AlternativeInvestment),
      let r := checkCompliance y fund perf alts
      (r.overallCompliant = false ↔
        (r.concentrationLimits.compliant = false ∨ r.feeDisclosure.compliant = false)) ∧
      ("Concentration Limits" ∈ r.violations ↔ r.concentrationLimits.compliant = false) ∧
      ("Fee Disclosure" ∈ r.violations ↔ r.feeDisclosure.compliant = false) ∧
      ("Risk Disclosure" ∈ r.warnings ↔ r.riskDisclosure.compliant = false) ∧
      ("Performance Reporting" ∈ r.warnings ↔ r.performanceReporting.compliant = false) ∧
      ("Liquidity Requirements" ∈ r.warnings ↔ r.liquidityRequirements.compliant = false) ∧
      (∀ v ∈ r.violations, v = "Concentration Limits" ∨ v = "Fee Disclosure") ∧
      (∀ w ∈ r.warnings,
        w = "Risk Disclosure" ∨ w = "Performance Reporting" ∨ w = "Liquidity Requirements") := by
  intro y fund perf alts
  unfold checkCompliance
  cases hc : (checkConcentrationLimits alts).compliant <;>
    cases hr : (checkRiskDisclosure y fund).compliant <;>
    cases hp : (checkPerformanceReporting perf).compliant <;>
    cases hf : (checkFeeDisclosure fund).compliant <;>
    cases hl : (checkLiquidityRequirements fund perf).compliant <;>
    simp [hc, hr, hp, hf, hl]

/-- C5 witness: the warnings conjunct at a fund with every disclosure field
missing, whose risk-disclosure failure lands in warnings. -/
theorem checkCompliance_aggregation_witness :
    "Risk Disclosure" = "Risk Disclosure" ∨ "Risk Disclosure" = "Performance Reporting" ∨
      "Risk Disclosure" = "Liquidity Requirements" :=
  (checkCompliance_aggregation 2020 ⟨none, none, none, none⟩ [] []).2.2.2.2.2.2.2
    "Risk Disclosure"
    (by simp [checkCompliance, checkConcentrationLimits, checkRiskDisclosure,
      checkPerformanceReporting, checkFeeDisclosure, checkLiquidityRequirements,
      calculateConcentrationRisk, optGT, fieldTruthy, jsTruthyStr, jsTruthyNum,
      jsTruthyYear, jsSum])

/- ---------------------------------------------------------------------- -/
/- C7: checkLiquidityRequirements                                         -/
/- ---------------------------------------------------------------------- -/

/-- C7: for nonnegative assets-under-management series, the liquidity check
passes exactly when the specification verdict holds: the most recent
assets-under-management reaches 10,000,000 and its ratio to 1% of the mean
assets-under-management across the series is at most 30; an empty series
fails with the insufficient-data reason. -/
theorem checkLiquidityRequirements_spec :
    ∀ (fund : FundData) (perf : List PerformancePoint),
      (∀ p ∈ perf, 0 ≤ p.assets_under_management) →
      ((checkLiquidityRequirements fund perf).compliant = true ↔ liquidityCompliantSpec perf) ∧
      (perf = [] → (checkLiquidityRequirements fund perf).compliant = false ∧
        (checkLiquidityRequirements fund perf).reason =
          some "Insufficient data for liquidity analysis") := by
  intro fund perf hnn
  rcases hperf : perf.getLast? with _ | last
  · have hnil : perf = [] := List.getLast?_eq_none_iff.mp hperf
    subst hnil
    refine ⟨?_, fun _ => ⟨rfl, rfl⟩⟩
    unfold checkLiquidityRequirements liquidityCompliantSpec
    simp
  · have hne : perf ≠ [] := by
      intro h; subst h; simp at hperf
    have hmem : last ∈ perf := by
      have hx : last ∈ perf.getLast? := by rw [hperf]; rfl
      obtain ⟨h, rfl⟩ := List.mem_getLast?_eq_getLast hx
      exact List.getLast_mem h
    have hrec : (0 : ℚ) ≤ last.assets_under_management := hnn last hmem
    have hlen : 0 < perf.length := List.length_pos.mpr hne
    have hS : (0 : ℚ) ≤ jsSum (perf.map (·.assets_under_management)) := by
      rw [jsSum_eq_sum]
      refine List.sum_nonneg ?_
      intro x hx
      obtain ⟨p, hp, rfl⟩ := List.mem_map.mp hx
      exact hnn p hp
    have hrle : last.assets_under_management ≤ jsSum (perf.map (·.assets_under_management)) := by
      rw [jsSum_eq_sum]
      refine List.single_le_sum ?_ _ (List.mem_map.mpr ⟨last, hmem, rfl⟩)
      intro x hx
      obtain ⟨p, hp, rfl⟩ := List.mem_map.mp hx
      exact hnn p hp
    refine ⟨?_, fun h => absurd h hne⟩
    unfold checkLiquidityRequirements liquidityCompliantSpec
    rw [hperf]
    rcases Nat.lt_or_ge perf.length 2 with hn2 | hn2
    · have h1 : perf.length = 1 := by omega
      have hadv : calculateAverageDailyVolume perf = 0 := by
        unfold calculateAverageDailyVolume
        rw [if_pos hn2]
      rw [hadv]
      obtain ⟨p, rfl⟩ := List.length_eq_one.mp h1
      have hlast : last = p := by
        simp at hperf
        exact hperf.symm
      subst hlast
      simp only [if_pos rfl, if_true]
      have hnlt : ¬ (last.assets_under_management < 0) := not_lt.mpr hrec
      simp only [jsSum, List.foldl, List.map, List.length]
      simp [hnlt]
      intro h10
      have hpos : (0 : ℚ) < last.assets_under_management := by linarith
      rw [lt_div_iff₀ (by positivity)]
      nlinarith
    · have hadv : calculateAverageDailyVolume perf =
          (jsSum (perf.map (·.assets_under_management)) / (perf.length : ℚ)) * 0.01 := by
        unfold calculateAverageDailyVolume
        rw [if_neg (not_lt.mpr hn2)]
      rw [hadv]
      rcases eq_or_lt_of_le hS with hS0 | hSpos
      · have hS0s : jsSum (perf.map (·.assets_under_management)) = 0 := hS0.symm
        have hr0 : last.assets_under_management = 0 :=
          le_antisymm (hS0s ▸ hrle) hrec
        norm_num [hS0s, hr0]
      · have hadvpos : (0 : ℚ) <
            (jsSum (perf.map (·.assets_under_management)) / (perf.length : ℚ)) * 0.01 := by
          have hn0 : (0 : ℚ) < (perf.length : ℚ) := by exact_mod_cast hlen
          positivity
        simp [hadvpos.ne']

/-- C7 witness: the verdict equivalence at a two-point series with a recent
assets-under-management of 10,000,000 against a 110,000,000 total. -/
theorem checkLiquidityRequirements_spec_witness :
    (checkLiquidityRequirements ⟨none, none, none, none⟩
        [⟨0, 0, 100000000⟩, ⟨0, 0, 10000000⟩]).compliant = true ↔
      liquidityCompliantSpec [⟨0, 0, 100000000⟩, ⟨0, 0, 10000000⟩] :=
  (checkLiquidityRequirements_spec ⟨none, none, none, none⟩
    [⟨0, 0, 100000000⟩, ⟨0, 0, 10000000⟩]
    (by
      intro p hp
      simp only [List.mem_cons, List.not_mem_nil, or_false] at hp
      rcases hp with hp | hp
      all_goals (subst hp; norm_num))).1

/- ---------------------------------------------------------------------- -/
/- C6: calculateVaR and calculateCVaR                                     -/
/- ---------------------------------------------------------------------- -/

/-- C6: for a nonempty series, the value at risk is the ascending-sort
element at index floor((1 - confidence) * n), 2 decimals, and the
conditional value at risk is the mean of the returns at or below that value,
falling back to the value itself when no observation qualifies; the empty
series gives 0 for both. -/
theorem calculateVaR_CVaR_spec :
    (∀ c : ℚ, calculateVaR [] c = some 0 ∧ calculateCVaR [] c = some 0) ∧
    (∀ (rs : List ℚ) (c : ℚ) (v : ℚ),
      rs ≠ [] →
      0 ≤ ⌊(1 - c) * (rs.length : ℚ)⌋ →
      (List.insertionSort (· ≤ ·) rs).get? (⌊(1 - c) * (rs.length : ℚ)⌋).toNat = some v →
      calculateVaR rs c = some (jsToFixed 2 v) ∧
      calculateCVaR rs c =
        (if rs.filter (fun ret => ret ≤ jsToFixed 2 v) = [] then some (jsToFixed 2 v)
         else some (jsToFixed 2 (jsMean (rs.filter fun ret => ret ≤ jsToFixed 2 v))))) := by
  constructor
  · intro c
    exact ⟨rfl, rfl⟩
  · intro rs c v hne h0 hget
    have hlen0 : rs.length ≠ 0 := fun h => hne (List.length_eq_zero.mp h)
    obtain ⟨hlt, hv⟩ := List.get?_eq_some.mp hget
    have hVar : calculateVaR rs c = some (jsToFixed 2 v) := by
      unfold calculateVaR
      rw [if_neg hlen0, dif_pos ⟨h0, hlt⟩, hv]
    refine ⟨hVar, ?_⟩
    unfold calculateCVaR
    rw [if_neg hlen0, hVar]
    by_cases ht : rs.filter (fun ret => ret ≤ jsToFixed 2 v) = []
    · simp [ht]
    · simp [List.length_eq_zero, ht]

/-- C6 witness: the series 3, 1, 2 at 95% confidence; the sort is 1, 2, 3 and
the index is floor(0.05 * 3) = 0, so the value at risk comes from element 1. -/
theorem calculateVaR_CVaR_spec_witness :
    calculateVaR [3, 1, 2] (19 / 20) = some (jsToFixed 2 1) ∧
    calculateCVaR [3, 1, 2] (19 / 20) =
      (if ([3, 1, 2] : List ℚ).filter (fun ret => ret ≤ jsToFixed 2 1) = []
       then some (jsToFixed 2 1)
       else some (jsToFixed 2 (jsMean (([3, 1, 2] : List ℚ).filter
         fun ret => ret ≤ jsToFixed 2 1)))) :=
  calculateVaR_CVaR_spec.2 [3, 1, 2] (19 / 20) 1 (by simp)
    (by norm_num)
    (by
      have hs : List.insertionSort (· ≤ ·) ([3, 1, 2] : List ℚ) = [1, 2, 3] := by decide
      have hi : (⌊(1 - 19 / 20) * ((([3, 1, 2] : List ℚ).length : ℕ) : ℚ)⌋).toNat = 0 := by
        norm_num
      rw [hs, hi]; rfl)

/- ---------------------------------------------------------------------- -/
/- C2: calculateAnnualizedReturn                                          -/
/- ---------------------------------------------------------------------- -/

/-- C2: on the one-element series with a 10% period return over 12 months the
code returns 110.00 while the compounding formula of the spec gives 10.00:
the fold sums the growth factors from an initial 1 instead of multiplying
them, so the claimed compounding does not hold. -/
theorem annualizedReturn_sums_not_compounds :
    calculateAnnualizedReturn [10] 12 = 110 ∧ annualizedReturnSpec [10] 12 = 10 := by
  have h12 : ((12 : ℝ) / 12) = 1 := by norm_num
  constructor
  · unfold calculateAnnualizedReturn
    rw [if_neg (by norm_num)]
    simp only [List.foldl]
    rw [h12, Real.rpow_one]
    unfold jsToFixed
    rw [if_neg (by norm_num)]
    norm_num
  · unfold annualizedReturnSpec
    rw [if_neg (by norm_num)]
    simp only [List.map, List.prod]
    rw [h12, Real.rpow_one]
    unfold jsToFixed
    rw [if_neg (by norm_num)]
    norm_num

/- ---------------------------------------------------------------------- -/
/- C10: beta and correlation of a series with itself                      -/
/- ---------------------------------------------------------------------- -/

theorem calculateBeta_branch (f b : List ℚ) (h : ¬(f.length ≠ b.length ∨ f.length = 0)) :
    calculateBeta f b =
      (if jsSum (b.map fun y => (y - jsMean b) * (y - jsMean b)) / (b.length : ℚ) = 0 then 1
       else jsToFixed 3
         ((jsSum (List.zipWith (fun x y => (x - jsMean f) * (y - jsMean b)) f b) /
            (f.length : ℚ)) /
          (jsSum (b.map fun y => (y - jsMean b) * (y - jsMean b)) / (b.length : ℚ)))) := by
  unfold calculateBeta
  rw [if_neg h]

theorem calculateCorrelation_branch (r1 r2 : List ℝ)
    (h : ¬(r1.length ≠ r2.length ∨ r1.length = 0)) :
    calculateCorrelation r1 r2 =
      (if Real.sqrt (jsSum (r1.map fun a => (a - jsMean r1) * (a - jsMean r1)) *
          jsSum (r2.map fun a => (a - jsMean r2) * (a - jsMean r2))) = 0 then 0
       else jsToFixed 3
         (jsSum (List.zipWith (fun a c => (a - jsMean r1) * (c - jsMean r2)) r1 r2) /
          Real.sqrt (jsSum (r1.map fun a => (a - jsMean r1) * (a - jsMean r1)) *
            jsSum (r2.map fun a => (a - jsMean r2) * (a - jsMean r2))))) := by
  unfold calculateCorrelation
  rw [if_neg h]

/-- C10: the beta of a non-constant series of length at least 2 against
itself is 1, as is its self-correlation, while the self-correlation of a
constant series degrades to the safe 0 of the zero-variance guard. -/
theorem beta_correlation_self :
    (∀ r : List ℚ, 2 ≤ r.length → (∃ a ∈ r, ∃ b ∈ r, a ≠ b) → calculateBeta r r = 1) ∧
    (∀ r : List ℝ, 2 ≤ r.length → (∃ a ∈ r, ∃ b ∈ r, a ≠ b) → calculateCorrelation r r = 1) ∧
    (∀ (r : List ℝ) (x : ℝ), (∀ y ∈ r, y = x) → calculateCorrelation r r = 0) := by
  refine ⟨fun r hlen hnc => ?_, fun r hlen hnc => ?_, fun r x hconst => ?_⟩
  · have hn0 : r.length ≠ 0 := by omega
    rw [calculateBeta_branch r r (by simp [hn0]), List.zipWith_same]
    have hV := jsSum_map_mulSelf_pos hnc
    have hnQ : (0 : ℚ) < (r.length : ℚ) := by exact_mod_cast Nat.pos_of_ne_zero hn0
    have hVn : jsSum (r.map fun y => (y - jsMean r) * (y - jsMean r)) / (r.length : ℚ) ≠ 0 :=
      ne_of_gt (div_pos hV hnQ)
    rw [if_neg hVn, div_self hVn, jsToFixed_one]
  · have hn0 : r.length ≠ 0 := by omega
    rw [calculateCorrelation_branch r r (by simp [hn0]), List.zipWith_same]
    have hV := jsSum_map_mulSelf_pos hnc
    have hsq : Real.sqrt (jsSum (r.map fun a => (a - jsMean r) * (a - jsMean r)) *
        jsSum (r.map fun a => (a - jsMean r) * (a - jsMean r))) =
        jsSum (r.map fun a => (a - jsMean r) * (a - jsMean r)) :=
      Real.sqrt_mul_self (le_of_lt hV)
    rw [hsq, if_neg (ne_of_gt hV), div_self (ne_of_gt hV), jsToFixed_one]
  · rcases eq_or_ne r [] with rfl | hne
    · unfold calculateCorrelation
      rw [if_pos (by simp)]
    · have hn0 : r.length ≠ 0 := fun h => hne (List.length_eq_zero.mp h)
      have hmean : jsMean r = x := jsMean_const hconst hne
      have hD1 : jsSum (r.map fun a => (a - jsMean r) * (a - jsMean r)) = 0 :=
        jsSum_map_zero (fun y hy => by rw [hconst y hy, hmean]; ring)
      rw [calculateCorrelation_branch r r (by simp [hn0]), hD1, zero_mul, Real.sqrt_zero,
        if_pos rfl]

/-- C10 witness: the non-constant series 1, 2 and the constant series 5, 5. -/
theorem beta_correlation_self_witness :
    calculateBeta [1, 2] [1, 2] = 1 ∧ calculateCorrelation [1, 2] [1, 2] = 1 ∧
    calculateCorrelation [5, 5] [5, 5] = 0 :=
  ⟨beta_correlation_self.1 [1, 2] (by norm_num) ⟨1, by simp, 2, by simp, by norm_num⟩,
   beta_correlation_self.2.1 [1, 2] (by norm_num) ⟨1, by simp, 2, by simp, by norm_num⟩,
   beta_correlation_self.2.2 [5, 5] 5 (by intro y hy; simpa using hy)⟩

/- ---------------------------------------------------------------------- -/
/- C9: rounding discipline                                                -/
/- ---------------------------------------------------------------------- -/

theorem calculateVolatility_branch (rs : List ℝ) (h : rs.length ≠ 0) :
    calculateVolatility rs =
      jsToFixed 2 (Real.sqrt (jsSum (rs.map fun ret => (ret - jsMean rs) ^ 2) /
        (rs.length : ℝ))) := by
  unfold calculateVolatility
  rw [if_neg h]

theorem calculateInformationRatio_branch (f b : List ℝ)
    (h : ¬(f.length ≠ b.length ∨ f.length = 0)) :
    calculateInformationRatio f b =
      (if calculateVolatility (List.zipWith (fun x y => x - y) f b) = 0 then 0
       else jsToFixed 3 (jsMean (List.zipWith (fun x y => x - y) f b) /
         calculateVolatility (List.zipWith (fun x y => x - y) f b))) := by
  unfold calculateInformationRatio
  rw [if_neg h]

theorem informationRatioFullPrecision_branch (f b : List ℝ)
    (h : ¬(f.length ≠ b.length ∨ f.length = 0)) :
    informationRatioFullPrecision f b =
      (if Real.sqrt (jsSum ((List.zipWith (fun x y => x - y) f b).map fun ret =>
          (ret - jsMean (List.zipWith (fun x y => x - y) f b)) ^ 2) /
          ((List.zipWith (fun x y => x - y) f b).length : ℝ)) = 0 then 0
       else jsToFixed 3 (jsMean (List.zipWith (fun x y => x - y) f b) /
         Real.sqrt (jsSum ((List.zipWith (fun x y => x - y) f b).map fun ret =>
           (ret - jsMean (List.zipWith (fun x y => x - y) f b)) ^ 2) /
           ((List.zipWith (fun x y => x - y) f b).length : ℝ)))) := by
  unfold informationRatioFullPrecision
  rw [if_neg h]

/-- C9 counterexample: on excess returns 0 and 0.002 the exact tracking error
is 0.001, which calculateVolatility rounds to 0.00 before
calculateInformationRatio divides by it, so the code returns the zero guard
while the full-precision computation of the spec gives 1. -/
theorem informationRatio_rounds_trackingError :
    calculateInformationRatio [0, 1 / 500] [0, 0] = 0 ∧
    informationRatioFullPrecision [0, 1 / 500] [0, 0] = 1 := by
  have hex : List.zipWith (fun x y => x - y) ([0, 1 / 500] : List ℝ) [0, 0] = [0, 1 / 500] := by
    norm_num
  have hmean : jsMean ([0, 1 / 500] : List ℝ) = 1 / 1000 := by
    norm_num [jsMean, jsSum]
  have hvarsum :
      jsSum (([0, 1 / 500] : List ℝ).map fun ret => (ret - jsMean [0, 1 / 500]) ^ 2) =
        1 / 500000 := by
    norm_num [jsSum, hmean]
  have harg :
      jsSum (([0, 1 / 500] : List ℝ).map fun ret => (ret - jsMean [0, 1 / 500]) ^ 2) /
        ((([0, 1 / 500] : List ℝ).length : ℕ) : ℝ) = (1 / 1000) ^ 2 := by
    rw [hvarsum]
    norm_num
  have hTE : calculateVolatility [0, 1 / 500] = 0 := by
    rw [calculateVolatility_branch _ (by norm_num), harg, Real.sqrt_sq (by norm_num)]
    unfold jsToFixed
    rw [if_neg (by norm_num)]
    norm_num
  constructor
  · rw [calculateInformationRatio_branch _ _ (by norm_num), hex, hTE, if_pos rfl]
  · rw [informationRatioFullPrecision_branch _ _ (by norm_num)]
    simp only [hex]
    rw [harg, Real.sqrt_sq (by norm_num), if_neg (by norm_num), hmean,
      div_self (by norm_num : (1 / 1000 : ℝ) ≠ 0), jsToFixed_one]

/-- C9 amended: the functions that accumulate inline, such as the Sortino
ratio with its downside deviation, keep full precision and round only as the
final step, but calculateInformationRatio consumes the already-rounded output
of calculateVolatility as its tracking-error denominator. -/
theorem rounding_final_step_amended :
    (∀ (returns : List ℝ) (riskFreeRate : ℝ),
      calculateSortinoRatio returns riskFreeRate =
        sortinoRatioFullPrecision returns riskFreeRate) ∧
    (∀ f b : List ℝ, f.length = b.length → f ≠ [] →
      calculateInformationRatio f b =
        (if calculateVolatility (List.zipWith (fun x y => x - y) f b) = 0 then 0
         else jsToFixed 3 (jsMean (List.zipWith (fun x y => x - y) f b) /
           calculateVolatility (List.zipWith (fun x y => x - y) f b)))) := by
  constructor
  · intro rs rf
    unfold calculateSortinoRatio sortinoRatioFullPrecision
    simp only [jsMean, jsSum_eq_sum]
  · intro f b h1 h2
    refine calculateInformationRatio_branch f b ?_
    push_neg
    exact ⟨h1, fun hh => h2 (List.length_eq_zero.mp hh)⟩

/-- C9 amended witness: the information-ratio equation at the series 1, 3
against a flat benchmark. -/
theorem rounding_final_step_amended_witness :
    calculateInformationRatio [1, 3] [0, 0] =
      (if calculateVolatility (List.zipWith (fun x y => x - y) [1, 3] [0, 0]) = 0 then 0
       else jsToFixed 3 (jsMean (List.zipWith (fun x y => x - y) [1, 3] [0, 0]) /
         calculateVolatility (List.zipWith (fun x y => x - y) [1, 3] [0, 0]))) :=
  rounding_final_step_amended.2 [1, 3] [0, 0] (by norm_num) (by simp)

/- ---------------------------------------------------------------------- -/
/- C1: safe defaults of the statistic functions                           -/
/- ---------------------------------------------------------------------- -/

theorem calculateSharpeRatio_branch (rs : List ℝ) (rf : ℝ) (h : rs.length ≠ 0) :
    calculateSharpeRatio rs rf =
      (if Real.sqrt (jsSum (rs.map fun ret => (ret - jsMean rs) ^ 2) / (rs.length : ℝ)) = 0
       then 0
       else jsToFixed 3 ((jsMean rs - rf) /
         Real.sqrt (jsSum (rs.map fun ret => (ret - jsMean rs) ^ 2) / (rs.length : ℝ)))) := by
  unfold calculateSharpeRatio
  rw [if_neg h]

theorem calculateSortinoRatio_branch (rs : List ℝ) (rf : ℝ) (h : rs.length ≠ 0) :
    calculateSortinoRatio rs rf =
      (if (rs.filter fun ret => ret < jsMean rs).length = 0 then 0
       else
        if Real.sqrt (jsSum ((rs.filter fun ret => ret < jsMean rs).map
            fun ret => (ret - jsMean rs) ^ 2) / (rs.length : ℝ)) = 0 then 0
        else jsToFixed 3 ((jsMean rs - rf) /
          Real.sqrt (jsSum ((rs.filter fun ret => ret < jsMean rs).map
            fun ret => (ret - jsMean rs) ^ 2) / (rs.length : ℝ)))) := by
  unfold calculateSortinoRatio
  rw [if_neg h]

theorem calculateConcentrationRisk_branch (al : List ℚ) (h : al.length ≠ 0) :
    calculateConcentrationRisk al =
      (if jsSum al = 0 then 0
       else jsToFixed 2 (jsSum (al.map fun alloc => (alloc / jsSum al) ^ 2) * 100)) := by
  unfold calculateConcentrationRisk
  rw [if_neg h]

/-- C1 counterexample: calculateTreynorRatio and calculateJensensAlpha on an
empty series divide the reduce-sum 0 by the length 0, so the JavaScript
result is NaN (none) rather than the safe default the claim promises for
every listed statistic. -/
theorem treynor_jensens_nan_on_empty :
    calculateTreynorRatio [] [] (5 / 2) = none ∧ calculateJensensAlpha [] [] (5 / 2) = none := by
  constructor <;> simp [calculateTreynorRatio, calculateJensensAlpha, calculateBeta, jsDiv, jsSum]

/-- C1 amended: every listed statistic except the Treynor ratio and Jensens
alpha degrades to its safe default (0, or 1 for beta) on an empty series, a
length mismatch, or a zero-variance denominator; the two exceptions lack the
empty-series guard and produce NaN there. -/
theorem statistics_safe_defaults_amended :
    (calculateVolatility [] = 0) ∧
    (calculateMaxDrawdown [] = 0) ∧
    (∀ rf : ℝ, calculateSharpeRatio [] rf = 0) ∧
    (∀ c : ℚ, calculateVaR [] c = some 0 ∧ calculateCVaR [] c = some 0) ∧
    (calculateConcentrationRisk [] = 0) ∧
    (∀ f b : List ℚ, f.length ≠ b.length ∨ f = [] → calculateBeta f b = 1) ∧
    (∀ r1 r2 : List ℝ, r1.length ≠ r2.length ∨ r1 = [] → calculateCorrelation r1 r2 = 0) ∧
    (∀ f b : List ℝ, f.length ≠ b.length ∨ f = [] → calculateInformationRatio f b = 0) ∧
    (∀ (rs : List ℝ) (rf x : ℝ), (∀ y ∈ rs, y = x) → calculateSharpeRatio rs rf = 0) ∧
    (∀ (rs : List ℝ) (rf x : ℝ), (∀ y ∈ rs, y = x) → calculateSortinoRatio rs rf = 0) ∧
    (∀ (f b : List ℚ) (x : ℚ), (∀ y ∈ b, y = x) → calculateBeta f b = 1) ∧
    (∀ (r1 r2 : List ℝ) (x : ℝ), (∀ y ∈ r1, y = x) → calculateCorrelation r1 r2 = 0) ∧
    (∀ (r1 r2 : List ℝ) (x : ℝ), (∀ y ∈ r2, y = x) → calculateCorrelation r1 r2 = 0) ∧
    (∀ (f b : List ℝ) (x : ℝ), (∀ y ∈ List.zipWith (fun p q => p - q) f b, y = x) →
      calculateInformationRatio f b = 0) ∧
    (∀ al : List ℚ, jsSum al = 0 → calculateConcentrationRisk al = 0) ∧
    (∀ (b : List ℚ) (rf : ℚ), calculateTreynorRatio [] b rf = none ∧
      calculateJensensAlpha [] b rf = none) := by
  refine ⟨rfl, rfl, fun rf => rfl, fun c => ⟨rfl, rfl⟩, rfl, ?_, ?_, ?_, ?_, ?_, ?_, ?_, ?_,
    ?_, ?_, ?_⟩
  · -- beta on mismatched lengths or an empty series
    intro f b h
    unfold calculateBeta
    rcases h with h | rfl
    · rw [if_pos (Or.inl h)]
    · rw [if_pos (Or.inr List.length_nil)]
  · -- correlation on mismatched lengths or an empty series
    intro r1 r2 h
    unfold calculateCorrelation
    rcases h with h | rfl
    · rw [if_pos (Or.inl h)]
    · rw [if_pos (Or.inr List.length_nil)]
  · -- information ratio on mismatched lengths or an empty series
    intro f b h
    unfold calculateInformationRatio
    rcases h with h | rfl
    · rw [if_pos (Or.inl h)]
    · rw [if_pos (Or.inr List.length_nil)]
  · -- Sharpe ratio on a constant series
    intro rs rf x hconst
    rcases eq_or_ne rs [] with rfl | hne
    · rfl
    · have hn0 : rs.length ≠ 0 := fun h => hne (List.length_eq_zero.mp h)
      have hvar : jsSum (rs.map fun ret => (ret - jsMean rs) ^ 2) = 0 :=
        jsSum_map_zero (fun y hy => by rw [hconst y hy, jsMean_const hconst hne]; ring)
      rw [calculateSharpeRatio_branch rs rf hn0, hvar, zero_div, Real.sqrt_zero, if_pos rfl]
  · -- Sortino ratio on a constant series
    intro rs rf x hconst
    rcases eq_or_ne rs [] with rfl | hne
    · rfl
    · have hn0 : rs.length ≠ 0 := fun h => hne (List.length_eq_zero.mp h)
      have hfil : (rs.filter fun ret => ret < jsMean rs) = [] := by
        rw [List.filter_eq_nil]
        intro a ha
        rw [hconst a ha, jsMean_const hconst hne]
        simp
      rw [calculateSortinoRatio_branch rs rf hn0, hfil]
      simp
  · -- beta against a flat benchmark
    intro f b x hconst
    by_cases hguard : f.length ≠ b.length ∨ f.length = 0
    · unfold calculateBeta
      rw [if_pos hguard]
    · push_neg at hguard
      have hbne : b ≠ [] := by
        intro hb
        subst hb
        exact hguard.2 (by simpa using hguard.1)
      have hV : jsSum (b.map fun y => (y - jsMean b) * (y - jsMean b)) = 0 :=
        jsSum_map_zero (fun y hy => by rw [hconst y hy, jsMean_const hconst hbne]; ring)
      rw [calculateBeta_branch f b (by push_neg; exact hguard), hV, zero_div, if_pos rfl]
  · -- correlation with a flat first series
    intro r1 r2 x hconst
    by_cases hguard : r1.length ≠ r2.length ∨ r1.length = 0
    · unfold calculateCorrelation
      rw [if_pos hguard]
    · push_neg at hguard
      have hne : r1 ≠ [] := fun h => hguard.2 (by rw [h]; rfl)
      have hD1 : jsSum (r1.map fun a => (a - jsMean r1) * (a - jsMean r1)) = 0 :=
        jsSum_map_zero (fun y hy => by rw [hconst y hy, jsMean_const hconst hne]; ring)
      rw [calculateCorrelation_branch r1 r2 (by push_neg; exact hguard), hD1, zero_mul,
        Real.sqrt_zero, if_pos rfl]
  · -- correlation with a flat second series
    intro r1 r2 x hconst
    by_cases hguard : r1.length ≠ r2.length ∨ r1.length = 0
    · unfold calculateCorrelation
      rw [if_pos hguard]
    · push_neg at hguard
      have hne : r2 ≠ [] := by
        intro hb
        subst hb
        exact hguard.2 (by simpa using hguard.1)
      have hD2 : jsSum (r2.map fun a => (a - jsMean r2) * (a - jsMean r2)) = 0 :=
        jsSum_map_zero (fun y hy => by rw [hconst y hy, jsMean_const hconst hne]; ring)
      rw [calculateCorrelation_branch r1 r2 (by push_neg; exact hguard), hD2, mul_zero,
        Real.sqrt_zero, if_pos rfl]
  · -- information ratio with constant excess returns
    intro f b x hconst
    by_cases hguard : f.length ≠ b.length ∨ f.length = 0
    · unfold calculateInformationRatio
      rw [if_pos hguard]
    · push_neg at hguard
      have hElen : (List.zipWith (fun p q => p - q) f b).length ≠ 0 := by
        rw [List.length_zipWith, hguard.1, min_self]
        rw [← hguard.1]
        exact hguard.2
      have hEne : List.zipWith (fun p q => p - q) f b ≠ [] :=
        fun h => hElen (by rw [h]; rfl)
      have hvar : jsSum ((List.zipWith (fun p q => p - q) f b).map
          fun ret => (ret - jsMean (List.zipWith (fun p q => p - q) f b)) ^ 2) = 0 :=
        jsSum_map_zero (fun y hy => by rw [hconst y hy, jsMean_const hconst hEne]; ring)
      have hTE : calculateVolatility (List.zipWith (fun p q => p - q) f b) = 0 := by
        rw [calculateVolatility_branch _ hElen, hvar, zero_div, Real.sqrt_zero, jsToFixed_zero]
      rw [calculateInformationRatio_branch f b (by push_neg; exact hguard)]
      rw [show (fun x y : ℝ => x - y) = (fun p q : ℝ => p - q) from rfl, hTE, if_pos rfl]
  · -- concentration risk with a zero allocation total
    intro al h
    by_cases hlen : al.length = 0
    · unfold calculateConcentrationRisk
      rw [if_pos hlen]
    · rw [calculateConcentrationRisk_branch al hlen, if_pos h]
  · -- Treynor ratio and Jensens alpha on an empty series are NaN
    intro b rf
    constructor <;>
      simp [calculateTreynorRatio, calculateJensensAlpha, calculateBeta, jsDiv, jsSum]

/-- C1 amended witness: a length mismatch for beta, a constant series for the
Sharpe ratio, a constant second series for the correlation and a cancelling
allocation total for the concentration risk. -/
theorem statistics_safe_defaults_amended_witness :
    calculateBeta [1] [1, 2] = 1 ∧ calculateSharpeRatio [3, 3] (5 / 2) = 0 ∧
    calculateCorrelation [1, 2] [5, 5] = 0 ∧ calculateConcentrationRisk [2, -2] = 0 :=
  ⟨statistics_safe_defaults_amended.2.2.2.2.2.1 [1] [1, 2] (Or.inl (by norm_num)),
   statistics_safe_defaults_amended.2.2.2.2.2.2.2.2.1 [3, 3] (5 / 2) 3
     (by intro y hy; simpa using hy),
   statistics_safe_defaults_amended.2.2.2.2.2.2.2.2.2.2.2.2.1 [1, 2] [5, 5] 5
     (by intro y hy; simpa using hy),
   statistics_safe_defaults_amended.2.2.2.2.2.2.2.2.2.2.2.2.2.2.1 [2, -2]
     (by norm_num [jsSum])⟩
